import Mathlib

/-!
Verification of the pdf-invoice-ai-tool backend against its specification.

This file gives a shallow embedding, in Lean 4, of the parts of the
TypeScript backend that the specification's claims are about:

* `QuotaHelper` (apps/api/src/utils/quotaHelper.ts): quota advisory
  payloads, the placeholder usage estimate, and the fallback heuristic.
* `AIService` (services/aiService.ts, cached variant): the extraction
  orchestrator with its in-memory cache, the markdown-fence sanitizer
  `cleanJsonResponse`, the zod `ExtractedDataSchema` validator, the
  `createTextHash` cache key, and the quota fallback document.
* The `POST /api/extract` route (routes/extract.ts with quota handling)
  from the point where the AI service is invoked.
* The invoice CRUD routes (routes/invoices.ts): duplicate-`fileId`
  rejection on create and offset pagination on list.

Modelling conventions: JavaScript strings are Lean `String`s (with UTF-16
code units recovered where the code indexes by them), JS numbers that hold
JSON data are modelled as `Int` (no claim depends on fractional values),
`Math.random()` is an explicit rational parameter in `[0,1)`, the current
date is an explicit `today : String` parameter, thrown JS `Error` values
are a `name`/`message` record, and the Mongo collection behind the invoice
routes is an explicit list threaded through the handlers.
-/

namespace PdfInvoice

/-- The whitespace class used by JavaScript's regex `\s` and
`String.prototype.trim`: the ASCII whitespace characters plus NBSP and the
BOM/zero-width-no-break space (the cases that can actually occur here). -/
def isJsSpace (c : Char) : Bool :=
  c = ' ' || c = '\t' || c = '\n' || c = '\r' ||
  c = Char.ofNat 11 || c = Char.ofNat 12 || c = Char.ofNat 160 ||
  c = Char.ofNat 8232 || c = Char.ofNat 8233 || c = Char.ofNat 65279

/-- `listStartsWith s pat` is true when `pat` is an initial segment of `s`. -/
def listStartsWith : List Char → List Char → Bool
  | _, [] => true
  | [], _ :: _ => false
  | c :: cs, d :: ds => c = d && listStartsWith cs ds

/-- `listContainsSub s pat` is true when `pat` occurs contiguously in `s`. -/
def listContainsSub : List Char → List Char → Bool
  | [], pat => pat.isEmpty
  | s@(_ :: rest), pat => listStartsWith s pat || listContainsSub rest pat

/-- JavaScript `String.prototype.includes`: substring containment. -/
def strIncludes (s sub : String) : Bool :=
  listContainsSub s.toList sub.toList

/-- JavaScript `String.prototype.trim`: drop whitespace from both ends. -/
def jsTrim (s : String) : String :=
  String.mk (((s.toList.dropWhile isJsSpace).reverse.dropWhile isJsSpace).reverse)

/-- A thrown JavaScript `Error`, reduced to the two fields this codebase
inspects: `name` and `message`. -/
structure JsError where
  name : String
  message : String
  deriving DecidableEq, Repr

/-- The `QuotaInfo` interface of quotaHelper.ts. -/
structure QuotaInfo where
  isQuotaExceeded : Bool
  retryAfter : Option String
  suggestions : List String
  upgradeUrl : Option String
  deriving DecidableEq, Repr

/-- `QuotaHelper.getQuotaInfo` (quotaHelper.ts): map an error to the
user-facing quota advisory payload, by message substring. -/
def getQuotaInfo (error : JsError) : QuotaInfo :=
  if strIncludes error.message "429 Too Many Requests" then
    { isQuotaExceeded := true
      retryAfter := some "24 hours"
      suggestions :=
        ["Wait until tomorrow for the free tier quota to reset (50 requests/day)",
         "Upgrade to a paid Gemini API plan for higher limits",
         "Implement request caching to reduce API calls",
         "Consider using multiple API keys for different environments"]
      upgradeUrl := some "https://ai.google.dev/pricing" }
  else if strIncludes error.message "API key" then
    { isQuotaExceeded := false
      retryAfter := none
      suggestions :=
        ["Check your GEMINI_API_KEY environment variable",
         "Verify the API key is valid and active",
         "Ensure the API key has the necessary permissions"]
      upgradeUrl := none }
  else
    { isQuotaExceeded := false
      retryAfter := none
      suggestions :=
        ["Check your internet connection",
         "Verify the Gemini API service is available",
         "Try again in a few minutes"]
      upgradeUrl := none }

/-- Result record of `QuotaHelper.getQuotaUsageEstimate`. -/
structure QuotaUsage where
  used : Int
  limit : Int
  remaining : Int
  deriving DecidableEq, Repr

/-- `QuotaHelper.getQuotaUsageEstimate` (quotaHelper.ts).  The call to
`Math.random()` is modelled by the explicit parameter `rnd`, a rational in
`[0,1)`; the code computes `Math.floor(rnd * freeTierLimit)` with
`freeTierLimit = 50`. -/
def getQuotaUsageEstimate (rnd : ℚ) : QuotaUsage :=
  let freeTierLimit : Int := 50
  let estimatedUsed : Int := Int.floor (rnd * (freeTierLimit : ℚ))
  { used := estimatedUsed
    limit := freeTierLimit
    remaining := freeTierLimit - estimatedUsed }

/-- `QuotaHelper.shouldUseFallback` (quotaHelper.ts): an error triggers
fallback mode when its message contains `"429 Too Many Requests"`,
`"quota"` or `"limit"`. -/
def shouldUseFallback (error : JsError) : Bool :=
  strIncludes error.message "429 Too Many Requests" ||
  strIncludes error.message "quota" ||
  strIncludes error.message "limit"

/-! ## JSON values

JavaScript values produced by `JSON.parse` and consumed by
`JSON.stringify` and the zod schema.  Numbers are modelled as `Int`: no
claim under verification depends on fractional numeric values. -/

/-- A JSON value.  Objects are ordered association lists; the parser below
collapses duplicate keys the way JavaScript object construction does
(later assignment wins, original position kept), so parsed objects have
unique keys. -/
inductive Json where
  | null : Json
  | bool (b : Bool) : Json
  | num (n : Int) : Json
  | str (s : String) : Json
  | arr (elems : List Json) : Json
  | obj (members : List (String × Json)) : Json

/-- Property read `o[key]` on a JS object: the value at the first (hence,
for parser-produced objects, only) occurrence of `key`. -/
def getField : List (String × Json) → String → Option Json
  | [], _ => none
  | (k, v) :: rest, key => if k = key then some v else getField rest key

/-- Property write `o[key] = v` on a JS object: overwrite in place when
the key exists, append otherwise. -/
def setField : List (String × Json) → String → Json → List (String × Json)
  | [], key, v => [(key, v)]
  | (k, w) :: rest, key, v =>
      if k = key then (key, v) :: rest else (k, w) :: setField rest key v

/-- Whitespace accepted between JSON tokens by `JSON.parse`. -/
def isJsonWs (c : Char) : Bool :=
  c = ' ' || c = '\t' || c = '\n' || c = '\r'

/-- Skip inter-token whitespace. -/
def skipWs (s : List Char) : List Char := s.dropWhile isJsonWs

/-- Value of a hexadecimal digit, used for `\uXXXX` string escapes. -/
def hexDigitVal (c : Char) : Option Nat :=
  if '0' ≤ c ∧ c ≤ '9' then some (c.toNat - 48)
  else if 'a' ≤ c ∧ c ≤ 'f' then some (c.toNat - 87)
  else if 'A' ≤ c ∧ c ≤ 'F' then some (c.toNat - 55)
  else none

/-- Parse the body of a JSON string literal (the opening quote already
consumed), returning the decoded characters and the rest of the input. -/
def parseJsonStringChars : Nat → List Char → Option (List Char × List Char)
  | 0, _ => none
  | _ + 1, [] => none
  | fuel + 1, c :: rest =>
      if c = '"' then some ([], rest)
      else if c = '\\' then
        match rest with
        | [] => none
        | e :: rest2 =>
            let cont : Char → List Char → Option (List Char × List Char) :=
              fun decoded r => do
                let (cs, r') ← parseJsonStringChars fuel r
                pure (decoded :: cs, r')
            if e = '"' then cont '"' rest2
            else if e = '\\' then cont '\\' rest2
            else if e = '/' then cont '/' rest2
            else if e = 'b' then cont (Char.ofNat 8) rest2
            else if e = 'f' then cont (Char.ofNat 12) rest2
            else if e = 'n' then cont '\n' rest2
            else if e = 'r' then cont '\r' rest2
            else if e = 't' then cont '\t' rest2
            else if e = 'u' then
              match rest2 with
              | h1 :: h2 :: h3 :: h4 :: rest3 => do
                  let d1 ← hexDigitVal h1
                  let d2 ← hexDigitVal h2
                  let d3 ← hexDigitVal h3
                  let d4 ← hexDigitVal h4
                  let code := ((d1 * 16 + d2) * 16 + d3) * 16 + d4
                  if code < 1114112 ∧ ¬ (55296 ≤ code ∧ code < 57344) then
                    cont (Char.ofNat code) rest3
                  else none
              | _ => none
            else none
      else if c.toNat < 32 then none
      else do
        let (cs, r') ← parseJsonStringChars fuel rest
        pure (c :: cs, r')

/-- Digit run to a natural number. -/
def digitsToNat (ds : List Char) : Nat :=
  List.foldl (fun a c => a * 10 + (c.toNat - 48)) 0 ds

/-- Parse a JSON number.  Numbers with a fractional part or an exponent
are outside the integer model and are rejected here. -/
def parseJsonNumber (s : List Char) : Option (Int × List Char) :=
  let (neg, s1) :=
    match s with
    | c :: rest => if c = '-' then (true, rest) else (false, s)
    | [] => (false, s)
  match s1.span (fun c => c.isDigit) with
  | ([], _) => none
  | (ds, rest) =>
      if ds.length > 1 ∧ ds.head? = some '0' then none
      else
        match rest with
        | c :: _ =>
            if c = '.' || c = 'e' || c = 'E' then none
            else some (if neg then -(digitsToNat ds : Int) else (digitsToNat ds : Int), rest)
        | [] => some (if neg then -(digitsToNat ds : Int) else (digitsToNat ds : Int), rest)

mutual

/-- Recursive-descent JSON value parser (fuel-indexed). -/
def parseJsonValue : Nat → List Char → Option (Json × List Char)
  | 0, _ => none
  | fuel + 1, s =>
      match skipWs s with
      | [] => none
      | c :: rest =>
          if c = '"' then do
            let (cs, r) ← parseJsonStringChars (rest.length + 1) rest
            pure (Json.str (String.mk cs), r)
          else if c = Char.ofNat 123 then do
            let (pairs, r) ← parseJsonObjMembers fuel rest
            pure (Json.obj (List.foldl (fun acc kv => setField acc kv.1 kv.2) [] pairs), r)
          else if c = '[' then do
            let (elems, r) ← parseJsonArrayElems fuel rest
            pure (Json.arr elems, r)
          else if listStartsWith (c :: rest) ("null".toList) then
            some (Json.null, (c :: rest).drop 4)
          else if listStartsWith (c :: rest) ("true".toList) then
            some (Json.bool true, (c :: rest).drop 4)
          else if listStartsWith (c :: rest) ("false".toList) then
            some (Json.bool false, (c :: rest).drop 5)
          else do
            let (n, r) ← parseJsonNumber (c :: rest)
            pure (Json.num n, r)

/-- Parse the members of a JSON object (after the opening brace),
returning the raw key/value pairs in source order. -/
def parseJsonObjMembers : Nat → List Char → Option (List (String × Json) × List Char)
  | 0, _ => none
  | fuel + 1, s =>
      match skipWs s with
      | [] => none
      | c :: rest =>
          if c = Char.ofNat 125 then some ([], rest)
          else if c = '"' then do
            let (key, r1) ← parseJsonStringChars (rest.length + 1) rest
            match skipWs r1 with
            | ':' :: r2 => do
                let (v, r3) ← parseJsonValue fuel r2
                match skipWs r3 with
                | ',' :: r4 => do
                    let (pairs, r5) ← parseJsonObjMembersAfterComma fuel r4
                    pure ((String.mk key, v) :: pairs, r5)
                | d :: r4 =>
                    if d = Char.ofNat 125 then some ([(String.mk key, v)], r4) else none
                | [] => none
            | _ => none
          else none

/-- Parse the members of a JSON object after a comma (at least one more
member must follow: JSON has no trailing commas). -/
def parseJsonObjMembersAfterComma : Nat → List Char → Option (List (String × Json) × List Char)
  | 0, _ => none
  | fuel + 1, s =>
      match skipWs s with
      | [] => none
      | c :: rest =>
          if c = '"' then do
            let (key, r1) ← parseJsonStringChars (rest.length + 1) rest
            match skipWs r1 with
            | ':' :: r2 => do
                let (v, r3) ← parseJsonValue fuel r2
                match skipWs r3 with
                | ',' :: r4 => do
                    let (pairs, r5) ← parseJsonObjMembersAfterComma fuel r4
                    pure ((String.mk key, v) :: pairs, r5)
                | d :: r4 =>
                    if d = Char.ofNat 125 then some ([(String.mk key, v)], r4) else none
                | [] => none
            | _ => none
          else none

/-- Parse the elements of a JSON array (after the opening bracket). -/
def parseJsonArrayElems : Nat → List Char → Option (List Json × List Char)
  | 0, _ => none
  | fuel + 1, s =>
      match skipWs s with
      | [] => none
      | c :: rest =>
          if c = ']' then some ([], rest)
          else do
            let (v, r1) ← parseJsonValue fuel (c :: rest)
            match skipWs r1 with
            | ',' :: r2 => do
                let (elems, r3) ← parseJsonArrayElemsAfterComma fuel r2
                pure (v :: elems, r3)
            | ']' :: r2 => some ([v], r2)
            | _ => none

/-- Parse the elements of a JSON array after a comma. -/
def parseJsonArrayElemsAfterComma : Nat → List Char → Option (List Json × List Char)
  | 0, _ => none
  | fuel + 1, s => do
      let (v, r1) ← parseJsonValue fuel s
      match skipWs r1 with
      | ',' :: r2 => do
          let (elems, r3) ← parseJsonArrayElemsAfterComma fuel r2
          pure (v :: elems, r3)
      | ']' :: r2 => some ([v], r2)
      | _ => none

end

/-- `JSON.parse`, as used by this codebase: `none` models a thrown
`SyntaxError`.  The whole input (up to trailing whitespace) must be one
JSON value. -/
def jsonParse (s : String) : Option Json :=
  match parseJsonValue (s.toList.length + 1) s.toList with
  | some (j, rest) => if (skipWs rest).isEmpty then some j else none
  | none => none

/-- Lowercase hex digit character. -/
def hexDigitChar (n : Nat) : Char :=
  if n < 10 then Char.ofNat (48 + n) else Char.ofNat (87 + n)

/-- `JSON.stringify` escaping of one string character. -/
def escapeJsonChar (c : Char) : List Char :=
  if c = '"' then ['\\', '"']
  else if c = '\\' then ['\\', '\\']
  else if c = Char.ofNat 8 then ['\\', 'b']
  else if c = '\t' then ['\\', 't']
  else if c = '\n' then ['\\', 'n']
  else if c = Char.ofNat 12 then ['\\', 'f']
  else if c = '\r' then ['\\', 'r']
  else if c.toNat < 32 then
    ['\\', 'u', '0', '0', hexDigitChar (c.toNat / 16), hexDigitChar (c.toNat % 16)]
  else [c]

/-- `JSON.stringify` of a string value. -/
def stringifyStr (s : String) : String :=
  "\"" ++ String.mk (s.toList.map escapeJsonChar).flatten ++ "\""

mutual

/-- `JSON.stringify` with default options (no extra whitespace). -/
def jsonStringify : Json → String
  | Json.null => "null"
  | Json.bool true => "true"
  | Json.bool false => "false"
  | Json.num n => toString n
  | Json.str s => stringifyStr s
  | Json.arr elems => "[" ++ stringifyElems elems ++ "]"
  | Json.obj members => "\x7b" ++ stringifyMembers members ++ "\x7d"

/-- Comma-separated serialization of array elements. -/
def stringifyElems : List Json → String
  | [] => ""
  | [x] => jsonStringify x
  | x :: y :: rest => jsonStringify x ++ "," ++ stringifyElems (y :: rest)

/-- Comma-separated serialization of object members. -/
def stringifyMembers : List (String × Json) → String
  | [] => ""
  | [(k, v)] => stringifyStr k ++ ":" ++ jsonStringify v
  | (k, v) :: m :: rest =>
      stringifyStr k ++ ":" ++ jsonStringify v ++ "," ++ stringifyMembers (m :: rest)

end

/-! ## The zod `ExtractedDataSchema` (aiService.ts) -/

/-- The `vendor` block of `ExtractedData`. -/
structure Vendor where
  name : String
  address : Option String
  taxId : Option String
  deriving DecidableEq, Repr

/-- One entry of `invoice.lineItems`. -/
structure LineItem where
  description : String
  unitPrice : Int
  quantity : Int
  total : Int
  deriving DecidableEq, Repr

/-- The `invoice` block of `ExtractedData`.  After the zod transform the
`currency` field is always a plain string, never null or absent. -/
structure InvoiceData where
  number : String
  date : String
  currency : String
  subtotal : Option Int
  taxPercent : Option Int
  total : Option Int
  poNumber : Option String
  poDate : Option String
  lineItems : List LineItem
  deriving DecidableEq, Repr

/-- The validated output type of `ExtractedDataSchema.parse`. -/
structure ExtractedData where
  vendor : Vendor
  invoice : InvoiceData
  deriving DecidableEq, Repr

/-- `z.string()` on a required object field: present and a string. -/
def zReqString (o : List (String × Json)) (key : String) : Option String :=
  match getField o key with
  | some (Json.str s) => some s
  | _ => none

/-- `z.string().optional()`: absent is fine, a present value must be a
string (an explicit null is rejected). -/
def zOptString (o : List (String × Json)) (key : String) : Option (Option String) :=
  match getField o key with
  | none => some none
  | some (Json.str s) => some (some s)
  | _ => none

/-- `z.number()` on a required object field. -/
def zReqNumber (o : List (String × Json)) (key : String) : Option Int :=
  match getField o key with
  | some (Json.num n) => some n
  | _ => none

/-- `z.number().optional()`. -/
def zOptNumber (o : List (String × Json)) (key : String) : Option (Option Int) :=
  match getField o key with
  | none => some none
  | some (Json.num n) => some (some n)
  | _ => none

/-- The `currency` field:
`z.string().nullable().optional().transform(val => val || 'INR')`.
Absent and null pass and transform to `"INR"`; a string passes and the
transform maps the (falsy) empty string to `"INR"` and keeps every other
string; any other value is a validation failure. -/
def zCurrency (o : List (String × Json)) : Option String :=
  match getField o "currency" with
  | none => some "INR"
  | some Json.null => some "INR"
  | some (Json.str s) => some (if s = "" then "INR" else s)
  | _ => none

/-- zod parse of one element of `invoice.lineItems`. -/
def parseLineItem : Json → Option LineItem
  | Json.obj o => do
      let description ← zReqString o "description"
      let unitPrice ← zReqNumber o "unitPrice"
      let quantity ← zReqNumber o "quantity"
      let total ← zReqNumber o "total"
      pure (LineItem.mk description unitPrice quantity total)
  | _ => none

/-- zod parse of the `vendor` object. -/
def parseVendor : Json → Option Vendor
  | Json.obj vo => do
      let name ← zReqString vo "name"
      let address ← zOptString vo "address"
      let taxId ← zOptString vo "taxId"
      pure (Vendor.mk name address taxId)
  | _ => none

/-- `z.array(...)` on the required `lineItems` field: present and an
array. -/
def zLineItemsArray (io : List (String × Json)) : Option (List Json) :=
  match getField io "lineItems" with
  | some (Json.arr xs) => some xs
  | _ => none

/-- zod parse of the `invoice` object. -/
def parseInvoice : Json → Option InvoiceData
  | Json.obj io => do
      let number ← zReqString io "number"
      let date ← zReqString io "date"
      let currency ← zCurrency io
      let subtotal ← zOptNumber io "subtotal"
      let taxPercent ← zOptNumber io "taxPercent"
      let total ← zOptNumber io "total"
      let poNumber ← zOptString io "poNumber"
      let poDate ← zOptString io "poDate"
      let elems ← zLineItemsArray io
      let lineItems ← elems.mapM parseLineItem
      pure (InvoiceData.mk number date currency subtotal taxPercent total
        poNumber poDate lineItems)
  | _ => none

/-- `ExtractedDataSchema.parse` (aiService.ts): `none` models a thrown
`ZodError`. -/
def extractedDataSchemaParse : Json → Option ExtractedData
  | Json.obj o => do
      let vendorJ ← getField o "vendor"
      let vendor ← parseVendor vendorJ
      let invoiceJ ← getField o "invoice"
      let invoice ← parseInvoice invoiceJ
      pure (ExtractedData.mk vendor invoice)
  | _ => none

/-- The raw `invoice.currency` property of a JSON value (when the value
and its `invoice` member are objects): what the zod transform and the
sanitizer's null-fix both look at. -/
def invoiceCurrencyField (j : Json) : Option Json :=
  match j with
  | Json.obj o =>
      match getField o "invoice" with
      | some (Json.obj io) => getField io "currency"
      | _ => none
  | _ => none

/-- Concrete parsed upstream response with an explicitly null
`invoice.currency`, used to witness claim C4. -/
def c4Json : Json :=
  Json.obj
    [("vendor", Json.obj [("name", Json.str "Acme")]),
     ("invoice", Json.obj
        [("number", Json.str "N1"),
         ("date", Json.str "2024-01-01"),
         ("currency", Json.null),
         ("lineItems", Json.arr [])])]

/-- The validated output for `c4Json`. -/
def c4Data : ExtractedData :=
  ExtractedData.mk (Vendor.mk "Acme" none none)
    (InvoiceData.mk "N1" "2024-01-01" "INR" none none none none none [])

/-- Concrete parsed upstream response with an empty-string
`invoice.currency`, used to witness claim C9. -/
def c9Json : Json :=
  Json.obj
    [("vendor", Json.obj [("name", Json.str "Acme")]),
     ("invoice", Json.obj
        [("number", Json.str "N2"),
         ("date", Json.str "2024-02-02"),
         ("currency", Json.str ""),
         ("lineItems", Json.arr [])])]

/-- The validated output for `c9Json`. -/
def c9Data : ExtractedData :=
  ExtractedData.mk (Vendor.mk "Acme" none none)
    (InvoiceData.mk "N2" "2024-02-02" "INR" none none none none none [])

/-! ## `AIService.cleanJsonResponse` (aiService.ts) -/

/-- Global regex replacement of `pat ++ \s*` by the empty string, as done
by `text.replace(/```json\s*/g, '')` and `.replace(/```\s*/g, '')`: scan
left to right; at a match, drop the pattern and the following maximal
whitespace run and continue after it. -/
def replaceFenceRun (p0 : Char) (prest : List Char) : Nat → List Char → List Char
  | 0, s => s
  | _ + 1, [] => []
  | fuel + 1, c :: rest =>
      if listStartsWith (c :: rest) (p0 :: prest) then
        replaceFenceRun p0 prest fuel ((rest.drop prest.length).dropWhile isJsSpace)
      else c :: replaceFenceRun p0 prest fuel rest

/-- The backtick character. -/
def backtick : Char := Char.ofNat 96

/-- The fence-stripping step of `cleanJsonResponse`:
`text.replace(/```json\s*/g, '').replace(/```\s*/g, '')`. -/
def stripFences (text : String) : String :=
  let pass1 := replaceFenceRun backtick (("``json").toList) text.toList.length text.toList
  String.mk (replaceFenceRun backtick (("``").toList) pass1.length pass1)

/-- The canned default document substituted by `cleanJsonResponse` when
the cleaned response is empty or `"{}"` (object literal from the source,
in source key order; `today` stands for
`new Date().toISOString().split('T')[0]`). -/
def defaultDocJson (today : String) : Json :=
  Json.obj
    [("vendor", Json.obj
        [("name", Json.str "Unknown Vendor"),
         ("address", Json.str ""),
         ("taxId", Json.str "")]),
     ("invoice", Json.obj
        [("number", Json.str "Unknown"),
         ("date", Json.str today),
         ("currency", Json.str "INR"),
         ("subtotal", Json.num 0),
         ("taxPercent", Json.num 18),
         ("total", Json.num 0),
         ("poNumber", Json.str ""),
         ("poDate", Json.str today),
         ("lineItems", Json.arr [])])]

/-- The null-currency fix of `cleanJsonResponse`: if `parsed.invoice` is
an object whose `currency` property is explicitly null, overwrite it with
`"INR"`; otherwise leave the value unchanged.  (When `parsed.invoice` is
not an object, `parsed.invoice.currency` is `undefined` in JS, which is
not `=== null`.) -/
def fixNullCurrency (j : Json) : Json :=
  match j with
  | Json.obj o =>
      match getField o "invoice" with
      | some (Json.obj io) =>
          match getField io "currency" with
          | some Json.null =>
              Json.obj (setField o "invoice"
                (Json.obj (setField io "currency" (Json.str "INR"))))
          | _ => j
      | _ => j
  | _ => j

/-- `AIService.cleanJsonResponse` (aiService.ts): strip markdown fences,
trim, substitute the canned default when empty or `"{}"`, otherwise parse
and re-serialize with null currency fixed, falling back to the cleaned
text when parsing fails. -/
def cleanJsonResponse (today : String) (text : String) : String :=
  let cleaned := jsTrim (stripFences text)
  if cleaned = "" ∨ cleaned = "\x7b\x7d" then
    jsonStringify (defaultDocJson today)
  else
    match jsonParse cleaned with
    | some parsed => jsonStringify (fixNullCurrency parsed)
    | none => cleaned

/-! ## `AIService.createTextHash`, fallback data and the orchestrator -/

/-- JavaScript `ToInt32`: wrap an integer into `[-2^31, 2^31)`. -/
def toInt32 (n : Int) : Int := (n + 2 ^ 31) % 2 ^ 32 - 2 ^ 31

/-- The UTF-16 code units of a character, as seen by JavaScript's
`charCodeAt`. -/
def charUtf16 (c : Char) : List Nat :=
  if c.toNat < 65536 then [c.toNat]
  else [55296 + (c.toNat - 65536) / 1024, 56320 + (c.toNat - 65536) % 1024]

/-- One iteration of the hash loop:
`hash = ((hash << 5) - hash) + char; hash = hash & hash`.  The shift
truncates to 32 bits, the add/subtract are exact, and `& hash` coerces
back to a 32-bit integer. -/
def hashStep (h : Int) (code : Nat) : Int :=
  toInt32 (toInt32 (h * 32) - h + code)

/-- `AIService.createTextHash` (aiService.ts): the 32-bit rolling hash of
the PDF text, rendered in decimal. -/
def createTextHash (text : String) : String :=
  toString (List.foldl hashStep 0 (text.toList.map charUtf16).flatten)

/-- `AIService.getFallbackData` (aiService.ts): the fixed record
substituted when the quota is exceeded (`today` stands for
`new Date().toISOString().split('T')[0]`). -/
def getFallbackData (today : String) : ExtractedData :=
  { vendor :=
      { name := "Vendor Name (Quota Exceeded)"
        address := some "Please try again tomorrow or upgrade your API plan"
        taxId := some "" }
    invoice :=
      { number := "INV-QUOTA-EXCEEDED"
        date := today
        currency := "INR"
        subtotal := some 0
        taxPercent := some 18
        total := some 0
        poNumber := some ""
        poDate := some today
        lineItems :=
          [{ description := "API quota exceeded - please try again tomorrow"
             unitPrice := 0
             quantity := 1
             total := 0 }] } }

/-- Text of the extraction prompt before the interpolated PDF text. -/
def extractionPromptPrefix : String :=
  "\nYou are an AI assistant specialized in extracting structured data from invoice PDFs. \nExtract the following information from the provided PDF text and return it as a valid JSON object.\n\nPDF Text:\n"

/-- Text of the extraction prompt after the interpolated PDF text. -/
def extractionPromptSuffix : String :=
  "\n\nPlease extract and return ONLY a JSON object with this exact structure:\n\x7b\n  \"vendor\": \x7b\n    \"name\": \"string (required)\",\n    \"address\": \"string (optional)\",\n    \"taxId\": \"string (optional)\"\n  \x7d,\n  \"invoice\": \x7b\n    \"number\": \"string (required)\",\n    \"date\": \"string (required, format: YYYY-MM-DD)\",\n    \"currency\": \"string (optional, default: USD - look for currency symbols ₹, $, €, £, ¥ or codes INR, USD, EUR, GBP, JPY)\",\n    \"subtotal\": \"number (optional)\",\n    \"taxPercent\": \"number (optional - look for IGST rate, GST rate, tax percentage, or similar)\",\n    \"total\": \"number (optional)\",\n    \"poNumber\": \"string (optional - look for PO No, Purchase Order No, P.O. No)\",\n    \"poDate\": \"string (optional, format: YYYY-MM-DD - look for PO Date, Purchase Order Date, P.O. Date)\",\n    \"lineItems\": [\n      \x7b\n        \"description\": \"string (required)\",\n        \"unitPrice\": \"number (required)\",\n        \"quantity\": \"number (required)\",\n        \"total\": \"number (required)\"\n      \x7d\n    ]\n  \x7d\n\x7d\n\nIMPORTANT EXTRACTION NOTES:\n\nTAX EXTRACTION:\n- Look for \"IGST rate\", \"GST rate\", \"Tax %\", \"Tax Rate\", \"VAT rate\", or similar terms\n- Extract the percentage value (e.g., if you see \"IGST @ 18%\", extract 18)\n- If multiple tax rates are mentioned, use the main/primary rate\n- Convert percentage to decimal if needed (e.g., 18% = 18, not 0.18)\n\nPURCHASE ORDER (PO) EXTRACTION:\n- Look for \"PO Date\", \"Purchase Order Date\", \"P.O. Date\", \"Order Date\", \"PO No\", \"Purchase Order No\", \"P.O. No\"\n- Extract PO number and date from these fields\n- For dates, convert to YYYY-MM-DD format\n- Look for patterns like \"PO: 12345\" or \"Purchase Order: ABC-2024-001\"\n\n       CURRENCY EXTRACTION:\n       - Look for currency symbols like \"₹\", \"$\", \"€\", \"£\", \"¥\", \"INR\", \"USD\", \"EUR\", \"GBP\", \"JPY\"\n       - Look for text like \"Currency:\", \"Amount in:\", \"Total in:\", \"INR\", \"USD\", \"EUR\", \"GBP\"\n       - Extract the currency code (e.g., INR, USD, EUR) or symbol\n       - If you see \"₹\" symbol or \"INR\" mentioned, use \"INR\"\n       - If you see \"$\" symbol or \"USD\" mentioned, use \"USD\"\n       - If no currency is found, use \"INR\" (default for Indian invoices)\n       - Common patterns: \"₹ 1000\", \"$1000\", \"INR 1000\", \"Amount in USD\"\n       - NEVER return null for currency - always provide a valid currency code\n\nCRITICAL INSTRUCTIONS:\n- Return ONLY the JSON object, no markdown formatting, no code blocks\n- Do NOT wrap the response in ```json or ```\n- If a field is not found, omit it (don\x27t use null)\n- For dates, use YYYY-MM-DD format\n- For numbers, use actual numbers, not strings\n- Extract all line items from the invoice\n- Be accurate and conservative - if unsure, omit the field\n- The response must be valid JSON that can be parsed directly\n"

/-- `AIService.createExtractionPrompt` (aiService.ts): the instruction
string with the PDF text embedded verbatim. -/
def createExtractionPrompt (pdfText : String) : String :=
  extractionPromptPrefix ++ pdfText ++ extractionPromptSuffix

/-- `AIService.extractWithGemini` (aiService.ts, cached variant).  The
SDK call `model.generateContent` is modelled by the explicit `upstream`
function from the prompt to either a response text or a thrown error.
Upstream errors whose message contains `"429 Too Many Requests"` become a
`QuotaExceededError`; messages containing `"API key"` become an invalid
key error; anything else is re-thrown. -/
def extractWithGemini (upstream : String → Except JsError String)
    (prompt : String) : Except JsError String :=
  match upstream prompt with
  | Except.ok t => Except.ok t
  | Except.error e =>
      if strIncludes e.message "429 Too Many Requests" then
        Except.error
          (JsError.mk "QuotaExceededError"
            "Gemini API quota exceeded. You have reached the free tier limit of 50 requests per day. Please try again tomorrow or upgrade to a paid plan.")
      else if strIncludes e.message "API key" then
        Except.error
          (JsError.mk "Error"
            "Invalid or missing Gemini API key. Please check your GEMINI_API_KEY environment variable.")
      else Except.error e

/-- Lookup in the in-memory extraction cache (`Map.get`/`Map.has`). -/
def cacheGet : List (String × ExtractedData) → String → Option ExtractedData
  | [], _ => none
  | (k, v) :: rest, key => if k = key then some v else cacheGet rest key

/-- Update of the in-memory extraction cache (`Map.set`). -/
def cacheSet : List (String × ExtractedData) → String → ExtractedData →
    List (String × ExtractedData)
  | [], key, v => [(key, v)]
  | (k, w) :: rest, key, v =>
      if k = key then (key, v) :: rest else (k, w) :: cacheSet rest key v

/-- Instrumentation of one `extractDataFromPDF` call: how many upstream
model calls, sanitizer runs and schema validations it performed. -/
structure ExtractLog where
  upstreamCalls : Nat
  sanitizeRuns : Nat
  validateRuns : Nat
  deriving DecidableEq, Repr

/-- Message of the `SyntaxError` thrown by `JSON.parse` on bad input.
The exact wording is produced by the JS engine; nothing in the code under
verification depends on it. -/
def jsonSyntaxErrorMsg : String := "Unexpected token in JSON"

/-- Summary message of a thrown `ZodError`.  The exact wording is
produced by the zod library; nothing in the code under verification
depends on it. -/
def zodErrorMsg : String := "Invalid input"

/-- `AIService.extractDataFromPDF` (aiService.ts, cached variant).
`keyConfigured` models whether `process.env.GEMINI_API_KEY` is set and
non-empty; `upstream` models the Gemini SDK call; `today` the current
date; `cache` the instance's in-memory cache.  Returns the JS outcome
(result or thrown error), the cache after the call, and the
instrumentation log. -/
def extractDataFromPDF (keyConfigured : Bool)
    (upstream : String → Except JsError String) (today : String)
    (cache : List (String × ExtractedData)) (pdfText : String) :
    Except JsError ExtractedData × List (String × ExtractedData) × ExtractLog :=
  let textHash := createTextHash pdfText
  match cacheGet cache textHash with
  | some cached => (Except.ok cached, cache, ExtractLog.mk 0 0 0)
  | none =>
      if keyConfigured then
        match extractWithGemini upstream (createExtractionPrompt pdfText) with
        | Except.error e =>
            if e.name = "QuotaExceededError" then
              let fallbackData := getFallbackData today
              (Except.ok fallbackData, cacheSet cache textHash fallbackData,
                ExtractLog.mk 1 0 0)
            else
              (Except.error
                (JsError.mk "Error"
                  ("Failed to extract data with Gemini: " ++ e.message)),
                cache, ExtractLog.mk 1 0 0)
        | Except.ok extractedText =>
            let cleanedText := cleanJsonResponse today extractedText
            match jsonParse cleanedText with
            | none =>
                (Except.error
                  (JsError.mk "Error"
                    ("Failed to extract data with Gemini: " ++ jsonSyntaxErrorMsg)),
                  cache, ExtractLog.mk 1 1 0)
            | some parsedData =>
                match extractedDataSchemaParse parsedData with
                | none =>
                    (Except.error
                      (JsError.mk "Error"
                        ("Failed to extract data with Gemini: " ++ zodErrorMsg)),
                      cache, ExtractLog.mk 1 1 1)
                | some validatedData =>
                    (Except.ok validatedData, cacheSet cache textHash validatedData,
                      ExtractLog.mk 1 1 1)
      else
        (Except.error
          (JsError.mk "Error"
            "Failed to extract data with Gemini: GEMINI_API_KEY not configured"),
          cache, ExtractLog.mk 0 0 0)

/-! ## The `POST /api/extract` route (routes/extract.ts, quota-aware
variant) -/

/-- The JSON body sent by the extract route. -/
inductive ExtractRouteBody where
  | success (data : ExtractedData)
  | quotaExceeded (error message : String) (quotaInfo : QuotaInfo)
      (retryAfter : Option String) (suggestions : List String)
  | configError (error message : String)
  | serverError (error message : String)

/-- An HTTP status/body pair produced by the extract route. -/
structure ExtractHttpResponse where
  status : Nat
  body : ExtractRouteBody

/-- The `POST /api/extract` handler from the point where the PDF text is
available: it constructs a fresh `AIService` (hence an empty cache),
calls `extractDataFromPDF`, and maps the outcome to an HTTP response:
200 on success, 429 with `getQuotaInfo` payload for a thrown
`QuotaExceededError`, 401 when the thrown message contains `"API key"`,
500 otherwise. -/
def extractRoutePost (keyConfigured : Bool)
    (upstream : String → Except JsError String) (today : String)
    (pdfText : String) : ExtractHttpResponse :=
  match (extractDataFromPDF keyConfigured upstream today [] pdfText).1 with
  | Except.ok extractedData =>
      ExtractHttpResponse.mk 200 (ExtractRouteBody.success extractedData)
  | Except.error e =>
      if e.name = "QuotaExceededError" then
        let quotaInfo := getQuotaInfo e
        ExtractHttpResponse.mk 429
          (ExtractRouteBody.quotaExceeded "API Quota Exceeded" e.message
            quotaInfo quotaInfo.retryAfter quotaInfo.suggestions)
      else if strIncludes e.message "API key" then
        ExtractHttpResponse.mk 401
          (ExtractRouteBody.configError "API Configuration Error" e.message)
      else
        ExtractHttpResponse.mk 500
          (ExtractRouteBody.serverError "Extraction failed" e.message)

/-! ## Invoice CRUD routes (routes/invoices.ts, models/Invoice.ts) -/

/-- The `invoice` block of a stored invoice (`InvoiceData` of
models/Invoice.ts): here `currency` is plain optional, with no transform. -/
structure DbInvoiceData where
  number : String
  date : String
  currency : Option String
  subtotal : Option Int
  taxPercent : Option Int
  total : Option Int
  poNumber : Option String
  poDate : Option String
  lineItems : List LineItem
  deriving DecidableEq, Repr

/-- A persisted invoice document (`IInvoice` of models/Invoice.ts).
`createdAt` is a timestamp, modelled as a natural number. -/
structure StoredInvoice where
  fileId : String
  fileName : String
  vendor : Vendor
  invoice : DbInvoiceData
  createdAt : Nat
  deriving DecidableEq, Repr

/-- A request body already accepted by `CreateInvoiceSchema`
(routes/invoices.ts).  The optional `fileUrl` is accepted by the schema
but has no column in the mongoose model, so it is not stored. -/
structure CreateInvoiceRequest where
  fileId : String
  fileName : String
  fileUrl : Option String
  vendor : Vendor
  invoice : DbInvoiceData
  deriving DecidableEq, Repr

/-- `POST /api/invoices`: reject with 409 when an invoice with the same
`fileId` already exists (`Invoice.findOne({fileId})`), otherwise append
the new document and answer 201.  Returns the HTTP status and the
collection after the call. -/
def createInvoice (db : List StoredInvoice) (reqBody : CreateInvoiceRequest)
    (now : Nat) : Nat × List StoredInvoice :=
  match db.find? (fun e => e.fileId == reqBody.fileId) with
  | some _ => (409, db)
  | none =>
      (201, db ++ [StoredInvoice.mk reqBody.fileId reqBody.fileName
        reqBody.vendor reqBody.invoice now])

/-- Insert one invoice into a list kept in descending `createdAt` order. -/
def insertByCreatedAtDesc (x : StoredInvoice) :
    List StoredInvoice → List StoredInvoice
  | [] => [x]
  | y :: ys =>
      if y.createdAt ≤ x.createdAt then x :: y :: ys
      else y :: insertByCreatedAtDesc x ys

/-- `sort({createdAt: -1})`: the stored invoices in descending
`createdAt` order. -/
def sortByCreatedAtDesc (db : List StoredInvoice) : List StoredInvoice :=
  List.foldr insertByCreatedAtDesc [] db

/-- Lowercase a string, for the case-insensitive (`$options: 'i'`) search. -/
def strToLower (s : String) : String :=
  String.mk (s.toList.map Char.toLower)

/-- The search filter of `GET /api/invoices?q=`: a case-insensitive
match of the query against `vendor.name` or `invoice.number`.  (The code
passes `q` to `$regex`; regex metacharacters are not modelled, the claims
under verification exercise only the no-query and plain-substring cases.) -/
def matchesSearch (q : String) (e : StoredInvoice) : Bool :=
  strIncludes (strToLower e.vendor.name) (strToLower q) ||
  strIncludes (strToLower e.invoice.number) (strToLower q)

/-- The `pagination` object returned by `GET /api/invoices`. -/
structure Pagination where
  page : Nat
  limit : Nat
  total : Nat
  pages : Nat
  deriving DecidableEq, Repr

/-- `GET /api/invoices`: filter by the optional query, sort by
`createdAt` descending, skip `(page-1)*limit`, take `limit`, and report
`total` matching documents and `pages = Math.ceil(total/limit)` (for a
positive `limit` the natural-number formula below is exactly that
ceiling). -/
def listInvoices (db : List StoredInvoice) (q : Option String)
    (pageNum limitNum : Nat) : List StoredInvoice × Pagination :=
  let filtered :=
    match q with
    | none => db
    | some qs => db.filter (matchesSearch qs)
  let sorted := sortByCreatedAtDesc filtered
  let skip := (pageNum - 1) * limitNum
  let total := filtered.length
  ((sorted.drop skip).take limitNum,
    Pagination.mk pageNum limitNum total ((total + limitNum - 1) / limitNum))

/-- A sample stored invoice used by the C7 and C8 witnesses. -/
def sampleStoredInvoice (n : Nat) : StoredInvoice :=
  StoredInvoice.mk (String.append "file-" (toString n)) "doc.pdf"
    (Vendor.mk "Acme" none none)
    (DbInvoiceData.mk "N1" "2024-01-01" (some "INR") none none none none none [])
    n

/-- A sample collection of 15 stored invoices, for the C8 witness. -/
def sampleDb15 : List StoredInvoice :=
  (List.range 15).map sampleStoredInvoice

/-- A concrete upstream behavior for the C1 analysis: the SDK call
rejects with a quota-exhaustion error, as the Gemini SDK reports it. -/
def c1Upstream : String → Except JsError String :=
  fun _ => Except.error (JsError.mk "Error"
    "[GoogleGenerativeAI Error]: Error fetching from https://generativelanguage.googleapis.com/: [429 Too Many Requests] You exceeded your current quota, please check your plan and billing details.")

/-- A concrete upstream behavior for the C2 witness: the model answers
with a JSON document (with an explicitly null currency). -/
def c2Upstream : String → Except JsError String :=
  fun _ => Except.ok
    "\x7b\"vendor\":\x7b\"name\":\"Acme\"\x7d,\"invoice\":\x7b\"number\":\"N1\",\"date\":\"2024-01-01\",\"currency\":null,\"lineItems\":[]\x7d\x7d"

/-- The validated record produced from `c2Upstream`'s response. -/
def c2Data : ExtractedData :=
  ExtractedData.mk (Vendor.mk "Acme" none none)
    (InvoiceData.mk "N1" "2024-01-01" "INR" none none none none none [])

/-- The cache contents after the first C2-witness call. -/
def c2CacheAfter : List (String × ExtractedData) :=
  [(createTextHash "some pdf text", c2Data)]

end PdfInvoice

namespace PdfInvoice

/-- Claim C3: whenever stripping the markdown fences and trimming leaves
the empty string or exactly `"\x7b\x7d"`, `cleanJsonResponse` returns the
serialized canned default document: vendor name `"Unknown Vendor"`,
invoice number `"Unknown"`, today's date, currency `"INR"`, tax percent
`18`, and an empty line-item list (see `defaultDocJson`). -/
theorem c3_sanitizer_default (today s : String)
    (h : jsTrim (stripFences s) = "" ∨ jsTrim (stripFences s) = "\x7b\x7d") :
    cleanJsonResponse today s = jsonStringify (defaultDocJson today) := by
  simp only [cleanJsonResponse]
  rw [if_pos h]

/-- Witness for C3 at the upstream response `"```json\n\x7b\x7d\n```"`. -/
theorem c3_sanitizer_default_witness :
    (jsTrim (stripFences "```json\n\x7b\x7d\n```") = "" ∨
     jsTrim (stripFences "```json\n\x7b\x7d\n```") = "\x7b\x7d") ∧
    cleanJsonResponse "2026-10-12" "```json\n\x7b\x7d\n```" =
      jsonStringify (defaultDocJson "2026-10-12") :=
  ⟨Or.inr rfl, c3_sanitizer_default "2026-10-12" "```json\n\x7b\x7d\n```" (Or.inr rfl)⟩

/-- Helper: a successful `parseInvoice` run takes its `currency` value
from `zCurrency`. -/
theorem parseInvoice_currency_eq (io : List (String × Json)) (inv : InvoiceData)
    (h : parseInvoice (Json.obj io) = some inv) :
    zCurrency io = some inv.currency := by
  rw [parseInvoice] at h
  obtain ⟨number, hn, h⟩ := Option.bind_eq_some.mp h
  obtain ⟨date, hd, h⟩ := Option.bind_eq_some.mp h
  obtain ⟨currency, hc, h⟩ := Option.bind_eq_some.mp h
  obtain ⟨subtotal, hs, h⟩ := Option.bind_eq_some.mp h
  obtain ⟨taxPercent, ht, h⟩ := Option.bind_eq_some.mp h
  obtain ⟨total, hto, h⟩ := Option.bind_eq_some.mp h
  obtain ⟨poNumber, hpn, h⟩ := Option.bind_eq_some.mp h
  obtain ⟨poDate, hpd, h⟩ := Option.bind_eq_some.mp h
  obtain ⟨elems, he, h⟩ := Option.bind_eq_some.mp h
  obtain ⟨lineItems, hli, h⟩ := Option.bind_eq_some.mp h
  injection h with h
  subst h
  exact hc

/-- Helper: a successful `extractedDataSchemaParse` run exposes the
object shape of the input and the `parseInvoice` run on its `invoice`
member. -/
theorem schemaParse_invoice_obj (j : Json) (d : ExtractedData)
    (h : extractedDataSchemaParse j = some d) :
    ∃ o io, j = Json.obj o ∧ getField o "invoice" = some (Json.obj io) ∧
      parseInvoice (Json.obj io) = some d.invoice := by
  cases j with
  | obj o =>
      rw [extractedDataSchemaParse] at h
      obtain ⟨vendorJ, hvj, h⟩ := Option.bind_eq_some.mp h
      obtain ⟨vendor, hv, h⟩ := Option.bind_eq_some.mp h
      obtain ⟨invoiceJ, hij, h⟩ := Option.bind_eq_some.mp h
      obtain ⟨invoice, hi, h⟩ := Option.bind_eq_some.mp h
      injection h with h
      subst h
      cases invoiceJ with
      | obj io => exact ⟨o, io, rfl, hij, hi⟩
      | null => simp [parseInvoice] at hi
      | bool b => simp [parseInvoice] at hi
      | num n => simp [parseInvoice] at hi
      | str s => simp [parseInvoice] at hi
      | arr xs => simp [parseInvoice] at hi
  | null => simp [extractedDataSchemaParse] at h
  | bool b => simp [extractedDataSchemaParse] at h
  | num n => simp [extractedDataSchemaParse] at h
  | str s => simp [extractedDataSchemaParse] at h
  | arr xs => simp [extractedDataSchemaParse] at h

/-- Claim C4: for every parsed upstream JSON whose `invoice.currency` is
explicitly null or absent, the output of the schema validator (when it
accepts) carries `invoice.currency = "INR"` — never null. -/
theorem c4_validated_currency_default (j : Json) (d : ExtractedData)
    (hnull : invoiceCurrencyField j = none ∨ invoiceCurrencyField j = some Json.null)
    (h : extractedDataSchemaParse j = some d) :
    d.invoice.currency = "INR" := by
  obtain ⟨o, io, rfl, hinv, hpi⟩ := schemaParse_invoice_obj _ d h
  have hcur := parseInvoice_currency_eq io d.invoice hpi
  have hfield : invoiceCurrencyField (Json.obj o) = getField io "currency" := by
    simp [invoiceCurrencyField, hinv]
  rw [hfield] at hnull
  rcases hnull with hn | hn <;>
    · simp only [zCurrency, hn] at hcur
      exact (Option.some.inj hcur).symm

/-- Witness for C4 at `c4Json` (currency explicitly null). -/
theorem c4_validated_currency_default_witness :
    (invoiceCurrencyField c4Json = none ∨
     invoiceCurrencyField c4Json = some Json.null) ∧
    extractedDataSchemaParse c4Json = some c4Data ∧
    c4Data.invoice.currency = "INR" :=
  ⟨Or.inr rfl, rfl, c4_validated_currency_default c4Json c4Data (Or.inr rfl) rfl⟩

/-- Claim C9: every record accepted by the schema validator carries a
non-empty `invoice.currency`; null, absent and empty-string currency
values are all coerced to `"INR"`. -/
theorem c9_validated_currency_nonempty (j : Json) (d : ExtractedData)
    (h : extractedDataSchemaParse j = some d) :
    d.invoice.currency ≠ "" ∧
    ((invoiceCurrencyField j = none ∨ invoiceCurrencyField j = some Json.null ∨
      invoiceCurrencyField j = some (Json.str "")) → d.invoice.currency = "INR") := by
  obtain ⟨o, io, rfl, hinv, hpi⟩ := schemaParse_invoice_obj _ d h
  have hcur := parseInvoice_currency_eq io d.invoice hpi
  have hfield : invoiceCurrencyField (Json.obj o) = getField io "currency" := by
    simp [invoiceCurrencyField, hinv]
  constructor
  · cases hg : getField io "currency" with
    | none =>
        simp only [zCurrency, hg] at hcur
        rw [← Option.some.inj hcur]
        decide
    | some v =>
        cases v with
        | null =>
            simp only [zCurrency, hg] at hcur
            rw [← Option.some.inj hcur]
            decide
        | str s =>
            simp only [zCurrency, hg] at hcur
            rw [← Option.some.inj hcur]
            by_cases hs : s = "" <;> simp [hs]
        | bool b => simp [zCurrency, hg] at hcur
        | num n => simp [zCurrency, hg] at hcur
        | arr xs => simp [zCurrency, hg] at hcur
        | obj kvs => simp [zCurrency, hg] at hcur
  · intro hcase
    rw [hfield] at hcase
    rcases hcase with hn | hn | hn <;>
      · simp only [zCurrency, hn, if_pos rfl] at hcur
        exact (Option.some.inj hcur).symm

/-- Witness for C9 at `c9Json` (currency the empty string). -/
theorem c9_validated_currency_nonempty_witness :
    extractedDataSchemaParse c9Json = some c9Data ∧
    (c9Data.invoice.currency ≠ "" ∧
     ((invoiceCurrencyField c9Json = none ∨
       invoiceCurrencyField c9Json = some Json.null ∨
       invoiceCurrencyField c9Json = some (Json.str "")) →
        c9Data.invoice.currency = "INR")) :=
  ⟨rfl, c9_validated_currency_nonempty c9Json c9Data rfl⟩

/-- Helper: reading a cache key just written returns the written value. -/
theorem cacheGet_cacheSet_self (c : List (String × ExtractedData))
    (k : String) (v : ExtractedData) :
    cacheGet (cacheSet c k v) k = some v := by
  induction c with
  | nil => simp [cacheSet, cacheGet]
  | cons kv rest ih =>
      obtain ⟨k0, v0⟩ := kv
      by_cases h : k0 = k <;> simp [cacheSet, cacheGet, h, ih]

/-- Claim C2: if a call to `extractDataFromPDF` completes successfully
with record `d` and cache `cache1`, then any further call on the same
service whose text hashes identically returns exactly `d`, leaves the
cache untouched, and performs no upstream call, no sanitization and no
validation (all instrumentation counters are zero). -/
theorem c2_cache_hit (keyConfigured : Bool)
    (upstream : String → Except JsError String) (today : String)
    (cache : List (String × ExtractedData)) (t1 t2 : String)
    (d : ExtractedData) (cache1 : List (String × ExtractedData))
    (log1 : ExtractLog)
    (h1 : extractDataFromPDF keyConfigured upstream today cache t1 =
      (Except.ok d, cache1, log1))
    (hh : createTextHash t2 = createTextHash t1) :
    extractDataFromPDF keyConfigured upstream today cache1 t2 =
      (Except.ok d, cache1, ExtractLog.mk 0 0 0) := by
  have hmem : cacheGet cache1 (createTextHash t1) = some d := by
    cases hc : cacheGet cache (createTextHash t1) with
    | some cached =>
        simp only [extractDataFromPDF, hc, Prod.mk.injEq, Except.ok.injEq] at h1
        obtain ⟨hda, hcb, -⟩ := h1
        rw [← hcb, hc, hda]
    | none =>
        simp only [extractDataFromPDF, hc] at h1
        by_cases hk : keyConfigured
        · simp only [hk, if_true] at h1
          cases hg : extractWithGemini upstream (createExtractionPrompt t1) with
          | error e =>
              simp only [hg] at h1
              by_cases hq : e.name = "QuotaExceededError"
              · simp only [hq, if_true, Prod.mk.injEq, Except.ok.injEq] at h1
                obtain ⟨hda, hcb, -⟩ := h1
                rw [← hcb, ← hda]
                exact cacheGet_cacheSet_self cache (createTextHash t1) _
              · simp only [hq, if_false, Prod.mk.injEq] at h1
                simp at h1
          | ok txt =>
              simp only [hg] at h1
              cases hp : jsonParse (cleanJsonResponse today txt) with
              | none => simp only [hp] at h1; simp at h1
              | some parsed =>
                  simp only [hp] at h1
                  cases hv : extractedDataSchemaParse parsed with
                  | none => simp only [hv] at h1; simp at h1
                  | some vd =>
                      simp only [hv, Prod.mk.injEq, Except.ok.injEq] at h1
                      obtain ⟨hda, hcb, -⟩ := h1
                      rw [← hcb, ← hda]
                      exact cacheGet_cacheSet_self cache (createTextHash t1) _
        · simp only [hk, if_false] at h1
          simp at h1
  simp only [extractDataFromPDF, hh, hmem]

/-- Witness for C2: a full first run of the pipeline (one upstream call,
one sanitizer run, one validation) followed by a second run on the same
text, answered from the cache with zero upstream calls. -/
theorem c2_cache_hit_witness :
    extractDataFromPDF true c2Upstream "2026-10-12" [] "some pdf text" =
      (Except.ok c2Data, c2CacheAfter, ExtractLog.mk 1 1 1) ∧
    createTextHash "some pdf text" = createTextHash "some pdf text" ∧
    extractDataFromPDF true c2Upstream "2026-10-12" c2CacheAfter "some pdf text" =
      (Except.ok c2Data, c2CacheAfter, ExtractLog.mk 0 0 0) :=
  ⟨rfl, rfl,
   c2_cache_hit true c2Upstream "2026-10-12" [] "some pdf text" "some pdf text"
     c2Data c2CacheAfter (ExtractLog.mk 1 1 1) rfl rfl⟩

/-- Claim C5 counterexample: with the credential not configured, the
extract endpoint answers 500, not 401 — the thrown message
`"Failed to extract data with Gemini: GEMINI_API_KEY not configured"`
does not contain the substring `"API key"` tested by the route's 401
branch. -/
theorem c5_counterexample :
    (extractRoutePost false (fun _ => Except.ok "") "2026-10-12" "doc").status = 500 ∧
    (extractRoutePost false (fun _ => Except.ok "") "2026-10-12" "doc").status ≠ 401 :=
  ⟨rfl, by decide⟩

/-- Claim C5, amended: while the credential is not configured (and the
text is not already cached), `extractDataFromPDF` fails with the wrapped
error `"Failed to extract data with Gemini: GEMINI_API_KEY not
configured"` without caching anything and without calling upstream; that
message does not contain `"API key"`, so the HTTP extract endpoint
answers 500 (not 401). -/
theorem c5_missing_key_500 (upstream : String → Except JsError String)
    (today : String) (cache : List (String × ExtractedData)) (pdfText : String)
    (hmiss : cacheGet cache (createTextHash pdfText) = none) :
    extractDataFromPDF false upstream today cache pdfText =
      (Except.error (JsError.mk "Error"
        "Failed to extract data with Gemini: GEMINI_API_KEY not configured"),
        cache, ExtractLog.mk 0 0 0) ∧
    strIncludes "Failed to extract data with Gemini: GEMINI_API_KEY not configured"
      "API key" = false ∧
    (extractRoutePost false upstream today pdfText).status = 500 := by
  refine ⟨?_, by decide, rfl⟩
  simp only [extractDataFromPDF, hmiss]
  rfl

/-- Witness for C5 on an empty cache. -/
theorem c5_missing_key_500_witness :
    cacheGet [] (createTextHash "doc") = none ∧
    (extractDataFromPDF false (fun _ => Except.ok "") "2026-10-12" [] "doc" =
      (Except.error (JsError.mk "Error"
        "Failed to extract data with Gemini: GEMINI_API_KEY not configured"),
        [], ExtractLog.mk 0 0 0) ∧
    strIncludes "Failed to extract data with Gemini: GEMINI_API_KEY not configured"
      "API key" = false ∧
    (extractRoutePost false (fun _ => Except.ok "") "2026-10-12" "doc").status = 500) :=
  ⟨rfl, c5_missing_key_500 (fun _ => Except.ok "") "2026-10-12" [] "doc" rfl⟩

/-- Claim C1 (code bug): when the upstream model call rejects with a
message containing `"429 Too Many Requests"`, `extractDataFromPDF` does
return the fixed fallback record (and caches it), but because the
`QuotaExceededError` is swallowed inside the service, the HTTP extract
endpoint answers 200 with the fallback record as its success payload —
never the documented 429 with `quotaInfo.isQuotaExceeded == true`. -/
theorem c1_quota_fallback_status_200 :
    (extractDataFromPDF true c1Upstream "2026-10-12" [] "some pdf text").1 =
      Except.ok (getFallbackData "2026-10-12") ∧
    (extractDataFromPDF true c1Upstream "2026-10-12" [] "some pdf text").2.1 =
      [(createTextHash "some pdf text", getFallbackData "2026-10-12")] ∧
    (extractRoutePost true c1Upstream "2026-10-12" "some pdf text").status = 200 ∧
    (extractRoutePost true c1Upstream "2026-10-12" "some pdf text").status ≠ 429 ∧
    (extractRoutePost true c1Upstream "2026-10-12" "some pdf text").body =
      ExtractRouteBody.success (getFallbackData "2026-10-12") :=
  ⟨rfl, rfl, rfl, by decide, rfl⟩

/-- Claim C6 counterexample: the message `"Request failed with status code
429"` contains `"429"`, yet `QuotaHelper.shouldUseFallback` returns
`false` on it, because the code tests for the full phrase
`"429 Too Many Requests"`, not for `"429"`. -/
theorem c6_counterexample :
    strIncludes (JsError.mk "Error" "Request failed with status code 429").message "429" = true ∧
    shouldUseFallback (JsError.mk "Error" "Request failed with status code 429") = false := by
  decide

/-- Claim C6, amended: for every error, `QuotaHelper.shouldUseFallback`
returns true if and only if the error's message contains
`"429 Too Many Requests"`, `"quota"`, or `"limit"` as a substring. -/
theorem c6_shouldUseFallback_iff (e : JsError) :
    shouldUseFallback e = true ↔
      (strIncludes e.message "429 Too Many Requests" = true ∨
       strIncludes e.message "quota" = true ∨
       strIncludes e.message "limit" = true) := by
  simp [shouldUseFallback, Bool.or_eq_true, or_assoc]

/-- Helper: inserting into the `createdAt`-sorted list adds one to its
length. -/
theorem length_insertByCreatedAtDesc (x : StoredInvoice) (l : List StoredInvoice) :
    (insertByCreatedAtDesc x l).length = l.length + 1 := by
  induction l with
  | nil => rfl
  | cons y ys ih =>
      unfold insertByCreatedAtDesc
      by_cases h : y.createdAt ≤ x.createdAt <;> simp [h, ih]

/-- Helper: sorting by `createdAt` preserves the length. -/
theorem length_sortByCreatedAtDesc (l : List StoredInvoice) :
    (sortByCreatedAtDesc l).length = l.length := by
  induction l with
  | nil => rfl
  | cons y ys ih =>
      show (insertByCreatedAtDesc y (List.foldr insertByCreatedAtDesc [] ys)).length
        = ys.length + 1
      rw [length_insertByCreatedAtDesc]
      exact congrArg (· + 1) ih

/-- Helper: `(t + l - 1) / l` is the ceiling of `t / l` for positive `l`,
characterized by the two covering inequalities. -/
theorem ceilDiv_bounds (t l : Nat) (hl : 1 ≤ l) :
    t ≤ ((t + l - 1) / l) * l ∧ ((t + l - 1) / l) * l < t + l := by
  have h1 := Nat.div_add_mod (t + l - 1) l
  have h2 : (t + l - 1) % l < l := Nat.mod_lt _ hl
  rw [Nat.mul_comm] at h1
  obtain ⟨m, hm⟩ : ∃ m, ((t + l - 1) / l) * l = m := ⟨_, rfl⟩
  obtain ⟨r, hr⟩ : ∃ r, (t + l - 1) % l = r := ⟨_, rfl⟩
  rw [hm, hr] at h1
  rw [hr] at h2
  rw [hm]
  omega

/-- Claim C7: creating an invoice whose `fileId` matches an
already-stored invoice answers 409 and leaves the stored collection
exactly as it was (nothing mutated, nothing added). -/
theorem c7_create_duplicate_409 (db : List StoredInvoice)
    (reqBody : CreateInvoiceRequest) (now : Nat)
    (h : ∃ e ∈ db, e.fileId = reqBody.fileId) :
    createInvoice db reqBody now = (409, db) := by
  obtain ⟨e, he, hid⟩ := h
  have hne : db.find? (fun x => x.fileId == reqBody.fileId) ≠ none := by
    intro hnone
    have := List.find?_eq_none.mp hnone e he
    simp [hid] at this
  obtain ⟨v, hv⟩ := Option.ne_none_iff_exists'.mp hne
  simp only [createInvoice, hv]

/-- Witness for C7: a one-element collection and a request re-using its
`fileId`. -/
theorem c7_create_duplicate_409_witness :
    (∃ e ∈ [sampleStoredInvoice 0],
      e.fileId = (CreateInvoiceRequest.mk "file-0" "b.pdf" none
        (Vendor.mk "V" none none)
        (DbInvoiceData.mk "N" "D" none none none none none none [])).fileId) ∧
    createInvoice [sampleStoredInvoice 0]
      (CreateInvoiceRequest.mk "file-0" "b.pdf" none
        (Vendor.mk "V" none none)
        (DbInvoiceData.mk "N" "D" none none none none none none [])) 77 =
      (409, [sampleStoredInvoice 0]) :=
  ⟨⟨sampleStoredInvoice 0, by simp, by decide⟩,
   c7_create_duplicate_409 _ _ 77 ⟨sampleStoredInvoice 0, by simp, by decide⟩⟩

/-- Claim C8: with no search query, page `p` of the invoice list is the
window of the `createdAt`-sorted collection at offset `(p-1)*limit` of
width `limit`; `total` is the collection size; `pages` is
`ceil(total/limit)` (stated by its formula and by the two covering
inequalities); in particular, for 15 stored invoices and `limit = 10`,
page 1 has 10 records, page 2 has the remaining 5, and `pages = 2`. -/
theorem c8_pagination (db : List StoredInvoice) (pageNum limitNum : Nat)
    (hp : 1 ≤ pageNum) (hl : 1 ≤ limitNum) :
    (listInvoices db none pageNum limitNum).1 =
      ((sortByCreatedAtDesc db).drop ((pageNum - 1) * limitNum)).take limitNum ∧
    (listInvoices db none pageNum limitNum).2.total = db.length ∧
    (listInvoices db none pageNum limitNum).2.pages =
      (db.length + limitNum - 1) / limitNum ∧
    db.length ≤ (listInvoices db none pageNum limitNum).2.pages * limitNum ∧
    (listInvoices db none pageNum limitNum).2.pages * limitNum <
      db.length + limitNum ∧
    (db.length = 15 → limitNum = 10 →
      ((pageNum = 1 → (listInvoices db none pageNum limitNum).1.length = 10) ∧
       (pageNum = 2 → (listInvoices db none pageNum limitNum).1.length = 5) ∧
       (listInvoices db none pageNum limitNum).2.pages = 2)) := by
  refine ⟨rfl, rfl, rfl, ?_, ?_, ?_⟩
  · exact (ceilDiv_bounds db.length limitNum hl).1
  · exact (ceilDiv_bounds db.length limitNum hl).2
  · intro h15 h10
    refine ⟨?_, ?_, ?_⟩
    · intro hpg
      simp [listInvoices, List.length_take, List.length_drop,
        length_sortByCreatedAtDesc, h15, h10, hpg]
    · intro hpg
      simp [listInvoices, List.length_take, List.length_drop,
        length_sortByCreatedAtDesc, h15, h10, hpg]
    · simp [listInvoices, h15, h10]

/-- Witness for C8: 15 sample invoices, page 1, limit 10. -/
theorem c8_pagination_witness :
    1 ≤ 1 ∧ 1 ≤ 10 ∧
    ((listInvoices sampleDb15 none 1 10).1 =
      ((sortByCreatedAtDesc sampleDb15).drop ((1 - 1) * 10)).take 10 ∧
    (listInvoices sampleDb15 none 1 10).2.total = sampleDb15.length ∧
    (listInvoices sampleDb15 none 1 10).2.pages =
      (sampleDb15.length + 10 - 1) / 10 ∧
    sampleDb15.length ≤ (listInvoices sampleDb15 none 1 10).2.pages * 10 ∧
    (listInvoices sampleDb15 none 1 10).2.pages * 10 < sampleDb15.length + 10 ∧
    (sampleDb15.length = 15 → 10 = 10 →
      ((1 = 1 → (listInvoices sampleDb15 none 1 10).1.length = 10) ∧
       (1 = 2 → (listInvoices sampleDb15 none 1 10).1.length = 5) ∧
       (listInvoices sampleDb15 none 1 10).2.pages = 2))) :=
  ⟨le_refl 1, by omega, c8_pagination sampleDb15 1 10 (le_refl 1) (by omega)⟩

/-- Claim C10: for every value of the internal randomness (a rational in
`[0,1)` standing for `Math.random()`), `QuotaHelper.getQuotaUsageEstimate`
returns `limit = 50`, `0 ≤ used ≤ 49`, `remaining = limit - used`, and
hence `used + remaining = 50`. -/
theorem c10_quota_usage_estimate (rnd : ℚ) (h0 : 0 ≤ rnd) (h1 : rnd < 1) :
    (getQuotaUsageEstimate rnd).limit = 50 ∧
    0 ≤ (getQuotaUsageEstimate rnd).used ∧
    (getQuotaUsageEstimate rnd).used ≤ 49 ∧
    (getQuotaUsageEstimate rnd).remaining =
      (getQuotaUsageEstimate rnd).limit - (getQuotaUsageEstimate rnd).used ∧
    (getQuotaUsageEstimate rnd).used + (getQuotaUsageEstimate rnd).remaining = 50 := by
  have h50 : (0:ℚ) < 50 := by norm_num
  have hlb : (0:ℤ) ≤ Int.floor (rnd * (50:ℚ)) :=
    Int.floor_nonneg.mpr (mul_nonneg h0 (le_of_lt h50))
  have hub : Int.floor (rnd * (50:ℚ)) < 50 := by
    apply Int.floor_lt.mpr
    push_cast
    nlinarith
  unfold getQuotaUsageEstimate
  refine ⟨rfl, ?_, ?_, ?_, ?_⟩ <;> simp only [] <;> push_cast <;> omega

/-- Witness for C10 at the concrete randomness value `1/2`. -/
theorem c10_quota_usage_estimate_witness :
    (0:ℚ) ≤ 1/2 ∧ (1/2:ℚ) < 1 ∧
    ((getQuotaUsageEstimate (1/2)).limit = 50 ∧
     0 ≤ (getQuotaUsageEstimate (1/2)).used ∧
     (getQuotaUsageEstimate (1/2)).used ≤ 49 ∧
     (getQuotaUsageEstimate (1/2)).remaining =
       (getQuotaUsageEstimate (1/2)).limit - (getQuotaUsageEstimate (1/2)).used ∧
     (getQuotaUsageEstimate (1/2)).used + (getQuotaUsageEstimate (1/2)).remaining = 50) :=
  ⟨by norm_num, by norm_num,
   c10_quota_usage_estimate (1/2) (by norm_num) (by norm_num)⟩

end PdfInvoice
